import Mathlib

/-!
Verification model of the editor-page subsystem of the archive-bot repository
(`src/util/editor/`): the base page abstraction with its two-phase update
wrapper (`base.py`), the processing guard (`base.py`), the switchable /
parent / child hierarchy (`hierarchy.py`), the menu selection callback
(`menu.py`) and the closable-page termination protocol (`closable.py`).

Python object identity is modelled by natural-number ids: every construction
of a new Python object is represented by a caller-supplied fresh id, and two
objects are `identical` (the `is` relation) exactly when their ids coincide.
Asynchronous effects are modelled by explicit event traces: an awaited call
appears as an event in the trace of the caller, and a suspension point that
the code never performs simply never occurs in the trace.
-/

namespace ArchiveBot

/-- Flags set on a callback function by the `disable_update` decorator
(base.py lines 160-178): `__editor_disable_update__` and
`__editor_disable_message_update__`. A callback that was never decorated
carries both flags as `false`, matching the `hasattr` checks in the wrapper. -/
structure CallbackFlags where
  disableUpdate : Bool
  disableMessageUpdate : Bool
deriving DecidableEq

/-- A view component as the editor framework manipulates it: its object id,
its `disabled` attribute, the `disable_update` flags of its callback, and how
many layers of `_wraps_update` have been applied to its callback
(`item.callback = _wraps_update(self, item.callback)` adds one layer). -/
structure Component where
  cid : Nat
  disabled : Bool
  flags : CallbackFlags
  wrapCount : Nat
deriving DecidableEq

/-- Events observable while running one component callback: the original
callback body, a call to `EditorPage.update`, a call to
`EditorPage.update_message`. -/
inductive CbEvent where
  | body (cid : Nat)
  | updateCall
  | updateMessageCall
deriving DecidableEq

/-- Trace of running a callback wrapped by `n` layers of `_wraps_update`
(base.py lines 21-36). Each layer awaits the inner callback and then, unless
the function carries `__editor_disable_update__`, runs `editor.update()`, and
unless it carries `__editor_disable_message_update__`, runs
`editor.update_message()`. `functools.wraps` copies both attributes outward,
so every layer reads the same flags. Zero layers run only the body. -/
def runWrapped (flags : CallbackFlags) (cid : Nat) : Nat → List CbEvent
  | 0 => [CbEvent.body cid]
  | n + 1 =>
      runWrapped flags cid n
        ++ (if flags.disableUpdate then [] else [CbEvent.updateCall])
        ++ (if flags.disableMessageUpdate then [] else [CbEvent.updateMessageCall])

/-- Model of `EditorPage.__init__` (base.py lines 53-63): after the base view
has collected the class-declared items into `self.children`, the loop
`for item in self.children: item.callback = _wraps_update(self, item.callback)`
adds exactly one wrapper layer to every component present at that moment. -/
def editorPageInit (children : List Component) : List Component :=
  children.map fun c => { c with wrapCount := c.wrapCount + 1 }

/-- Model of `discord.ui.View.add_item`: appends a component to the view
without touching its callback. -/
def add_item (children : List Component) (c : Component) : List Component :=
  children ++ [c]

/-- Model of `MenuPage.__init__` (menu.py lines 47-73): it calls
`super().__init__(message, embed)` first — which runs the wrap loop of
`EditorPage.__init__` over the class-declared items — and only then builds
`self.CHILDREN_SELECT` and passes it to `add_item`, so the selection
component is added after the wrap loop and is never wrapped. -/
def menuPageInit (classItems : List Component) (childrenSelect : Component) :
    List Component :=
  add_item (editorPageInit classItems) childrenSelect

/-- Claim C8: every component present at construction has its callback wrapped
exactly once, so that `update` then `update_message` run after a successful
callback unless the callback's flags skip one or both phases; the menu's
selection component is added after construction, stays unwrapped, and
triggers neither phase. -/
theorem callbacks_wrapped_once_at_construction
    (classItems : List Component) (sel : Component)
    (h0 : ∀ c ∈ classItems, c.wrapCount = 0) (hs : sel.wrapCount = 0) :
    menuPageInit classItems sel
      = classItems.map (fun c => { c with wrapCount := 1 }) ++ [sel]
    ∧ (∀ c ∈ classItems,
        runWrapped c.flags c.cid 1
          = [CbEvent.body c.cid]
            ++ (if c.flags.disableUpdate then [] else [CbEvent.updateCall])
            ++ (if c.flags.disableMessageUpdate then []
                else [CbEvent.updateMessageCall]))
    ∧ runWrapped sel.flags sel.cid sel.wrapCount = [CbEvent.body sel.cid] := by
  refine ⟨?_, ?_, ?_⟩
  · unfold menuPageInit editorPageInit add_item
    congr 1
    exact List.map_congr_left fun c hc => by simp [h0 c hc]
  · intro c _
    simp [runWrapped]
  · simp [hs, runWrapped]

/-- Witness for C8 at a concrete page: two class-declared components (one
unflagged, one flagged to skip both phases) and an unwrapped selection
component added afterwards. -/
theorem callbacks_wrapped_once_at_construction_witness :
    ((∀ c ∈ [Component.mk 0 false (CallbackFlags.mk false false) 0,
             Component.mk 1 false (CallbackFlags.mk true true) 0], c.wrapCount = 0)
      ∧ (Component.mk 2 false (CallbackFlags.mk false false) 0).wrapCount = 0)
    ∧ (menuPageInit
        [Component.mk 0 false (CallbackFlags.mk false false) 0,
         Component.mk 1 false (CallbackFlags.mk true true) 0]
        (Component.mk 2 false (CallbackFlags.mk false false) 0)
      = [Component.mk 0 false (CallbackFlags.mk false false) 0,
         Component.mk 1 false (CallbackFlags.mk true true) 0].map
          (fun c => { c with wrapCount := 1 }) ++
        [Component.mk 2 false (CallbackFlags.mk false false) 0]
    ∧ (∀ c ∈ [Component.mk 0 false (CallbackFlags.mk false false) 0,
              Component.mk 1 false (CallbackFlags.mk true true) 0],
        runWrapped c.flags c.cid 1
          = [CbEvent.body c.cid]
            ++ (if c.flags.disableUpdate then [] else [CbEvent.updateCall])
            ++ (if c.flags.disableMessageUpdate then []
                else [CbEvent.updateMessageCall]))
    ∧ runWrapped (Component.mk 2 false (CallbackFlags.mk false false) 0).flags
        (Component.mk 2 false (CallbackFlags.mk false false) 0).cid
        (Component.mk 2 false (CallbackFlags.mk false false) 0).wrapCount
      = [CbEvent.body (Component.mk 2 false (CallbackFlags.mk false false) 0).cid]) :=
  ⟨⟨by decide, by decide⟩,
   callbacks_wrapped_once_at_construction _ _ (by decide) (by decide)⟩

/-- The mutable state of one `disable_when_processing` guard object
(base.py lines 128-133): `self.disabled_items`, the list of components the
guard disabled (held here by component id), and `self.editor`, the editor
bound by the most recent `__call__`. Both live on the guard object itself. -/
structure Guard where
  disabledItems : List Nat
  editor : Option Nat
deriving DecidableEq

/-- Model of `disable_when_processing.__init__` (base.py lines 128-133): runs
once, when the decorator is applied during class-body evaluation; it rejects a
non-coroutine function with a `ValueError` and otherwise produces the single
guard object with an empty remembered list and no editor bound yet. -/
def guardInit (isCoroutineFunction : Bool) : Except Unit Guard :=
  if isCoroutineFunction then
    Except.ok { disabledItems := [], editor := none }
  else
    Except.error ()

/-- The first statement of `disable_when_processing.__call__` (base.py line
136): `self.editor = editor`, overwriting whatever editor was bound before. -/
def guardBind (g : Guard) (editorId : Nat) : Guard :=
  { g with editor := some editorId }

/-- The loop of `disable_when_processing.__aenter__` (base.py lines 143-150):
walk the editor's children in order; each item that is not already disabled is
appended to `self.disabled_items`, and every item is disabled. Returns the
remembered list and the updated children. -/
def aenterLoop : List Component → List Nat → List Nat × List Component
  | [], remembered => (remembered, [])
  | c :: rest, remembered =>
      let remembered1 := if c.disabled then remembered else remembered ++ [c.cid]
      let out := aenterLoop rest remembered1
      (out.1, { c with disabled := true } :: out.2)

/-- Model of `disable_when_processing.__aenter__` (base.py lines 140-151): run
the remember-and-disable loop over the bound editor's children, then call
`self.editor.update_message()` once (the returned number counts those calls). -/
def guardAenter (g : Guard) (children : List Component) :
    Guard × List Component × Nat :=
  let out := aenterLoop children g.disabledItems
  ({ g with disabledItems := out.1 }, out.2, 1)

/-- Model of `disable_when_processing.__aexit__` (base.py lines 153-157):
set `item.disabled = False` for every remembered item (the remembered entries
reference the same objects that sit in the children list), clear the
remembered list, and call `update_message` once. Runs regardless of whether
the guarded body raised, because `async with` runs `__aexit__` on both exits. -/
def guardAexit (g : Guard) (children : List Component) :
    Guard × List Component × Nat :=
  ({ g with disabledItems := [] },
   children.map fun c =>
     if c.cid ∈ g.disabledItems then { c with disabled := false } else c,
   1)

/-- Model of `disable_when_processing.__call__` (base.py lines 135-138):
bind the calling editor, then run the guarded body inside `async with self`,
so `__aenter__` precedes the body and `__aexit__` runs whether the body
returns normally or raises (`bodyOk` abstracts that outcome; the body itself
does not touch the component list). Returns the guard state after the call,
the children after the call, the `update_message` counts of entry and exit,
and the body outcome, which propagates unchanged. -/
def guardCall (g : Guard) (editorId : Nat) (children : List Component)
    (bodyOk : Bool) : Guard × List Component × (Nat × Nat) × Bool :=
  let g0 := guardBind g editorId
  let e := guardAenter g0 children
  let x := guardAexit e.1 e.2.1
  (x.1, x.2.1, (e.2.2, x.2.2), bodyOk)

/-- Ids of the components that are enabled (not disabled). -/
def enabledIds (l : List Component) : List Nat :=
  (l.filter fun c => !c.disabled).map Component.cid

theorem aenterLoop_spec (l : List Component) (acc : List Nat) :
    aenterLoop l acc
      = (acc ++ enabledIds l, l.map fun c => { c with disabled := true }) := by
  induction l generalizing acc with
  | nil => simp [aenterLoop, enabledIds]
  | cons c rest ih =>
      cases hc : c.disabled <;>
        simp [aenterLoop, enabledIds, hc, ih, List.filter_cons]

theorem mem_enabledIds_iff (l : List Component)
    (hnd : (l.map Component.cid).Nodup) :
    ∀ c ∈ l, (c.cid ∈ enabledIds l ↔ c.disabled = false) := by
  intro c hc
  constructor
  · intro hmem
    rcases List.mem_map.mp hmem with ⟨x, hx, hxc⟩
    rcases List.mem_filter.mp hx with ⟨hxl, hxe⟩
    have hxeq : x = c := List.inj_on_of_nodup_map hnd hxl hc hxc
    subst hxeq
    simpa using hxe
  · intro hen
    exact List.mem_map.mpr ⟨c, List.mem_filter.mpr ⟨hc, by simp [hen]⟩, rfl⟩

theorem reenable_restores (l : List Component) (S : List Nat)
    (hS : ∀ c ∈ l, (c.cid ∈ S ↔ c.disabled = false)) :
    ((l.map fun c => { c with disabled := true }).map fun c =>
        if c.cid ∈ S then { c with disabled := false } else c) = l := by
  induction l with
  | nil => simp
  | cons c rest ih =>
      have hc := hS c (by simp)
      have hrest : ∀ x ∈ rest, (x.cid ∈ S ↔ x.disabled = false) := by
        intro x hx
        exact hS x (by simp [hx])
      obtain ⟨cid, cdis, cfl, cw⟩ := c
      cases cdis with
      | false =>
          have : cid ∈ S := by simpa using hc.mpr rfl
          simp [this, ih hrest]
      | true =>
          have : cid ∉ S := by
            intro hmem
            simpa using hc.mp hmem
          simp [this, ih hrest]

/-- Claim C4: with distinct component ids and the guard's remembered list
empty at entry (its state after `__init__` and after every `__aexit__`), a
guarded call — whether the body returns normally or raises — leaves the
component list exactly as it was before entry (components enabled before are
enabled again, components already disabled stay disabled), clears the
remembered list, and calls `update_message` once on entry and once on exit. -/
theorem guard_restores_component_partition
    (children : List Component) (editorId : Nat) (bodyOk : Bool)
    (hnd : (children.map Component.cid).Nodup) :
    guardCall { disabledItems := [], editor := none } editorId children bodyOk
      = ({ disabledItems := [], editor := some editorId },
         children, (1, 1), bodyOk) := by
  unfold guardCall guardBind guardAenter guardAexit
  simp only [aenterLoop_spec, List.nil_append]
  exact Prod.ext rfl (Prod.ext
    (reenable_restores children (enabledIds children)
      (mem_enabledIds_iff children hnd)) rfl)

/-- Witness for C4: a page with component A enabled and component B already
disabled; after the guarded region (run here with a raising body) A is enabled
and B still disabled, i.e. the component list is unchanged. -/
theorem guard_restores_component_partition_witness :
    ([Component.mk 0 false (CallbackFlags.mk false false) 1,
      Component.mk 1 true (CallbackFlags.mk false false) 1].map
        Component.cid).Nodup
    ∧ guardCall { disabledItems := [], editor := none } 42
        [Component.mk 0 false (CallbackFlags.mk false false) 1,
         Component.mk 1 true (CallbackFlags.mk false false) 1] false
      = ({ disabledItems := [], editor := some 42 },
         [Component.mk 0 false (CallbackFlags.mk false false) 1,
          Component.mk 1 true (CallbackFlags.mk false false) 1], (1, 1), false) :=
  ⟨by decide,
   guard_restores_component_partition
     [Component.mk 0 false (CallbackFlags.mk false false) 1,
      Component.mk 1 true (CallbackFlags.mk false false) 1] 42 false (by decide)⟩

/-- A page class as produced by evaluating a class body in which some methods
carry the `@disable_when_processing` decorator: each such decoration runs once
at class-definition time and stores the resulting guard object as the class
attribute replacing the method, so the class holds one guard id per decorated
method name. -/
structure PageClassDef where
  guardOf : List (String × Nat)
deriving DecidableEq

/-- Evaluating a class body with the given decorated method names: the guard
objects are allocated once, here, with consecutive fresh ids starting at
`firstId` — one guard per decorated function. -/
def defineClass (methods : List String) (firstId : Nat) : PageClassDef :=
  { guardOf := methods.enum.map fun e => (e.2, firstId + e.1) }

/-- A page instance: instantiation stores instance data but allocates no new
guard objects — the guard is not copied into the instance dictionary. -/
structure PageInstance where
  cls : PageClassDef
  instId : Nat
deriving DecidableEq

/-- Python attribute lookup for the decorated method on an instance: a
`disable_when_processing` object is not a descriptor, so the lookup falls
through the empty instance dictionary to the class attribute and yields the
class's guard object itself. -/
def resolveGuard (p : PageInstance) (m : String) : Option Nat :=
  (p.cls.guardOf.find? fun e => e.1 = m).map Prod.snd

/-- Claim C10: exactly one guard per decorated function is created at
class-definition time; every instance of the class resolves the method to the
same guard object; each `__call__` overwrites the guard's editor reference
(the previous binding is lost); and `__aenter__` appends to the guard's
existing remembered list rather than starting a fresh one, so two overlapping
invocations accumulate into one shared list. The guard's state is therefore
per-function, not per page instance or per invocation. -/
theorem guard_shared_per_function
    (methods : List String) (firstId : Nat) (m : String) (i j : Nat)
    (g : Guard) (e1 e2 : Nat) (ch1 ch2 : List Component) :
    (defineClass methods firstId).guardOf.length = methods.length
    ∧ resolveGuard { cls := defineClass methods firstId, instId := i } m
        = resolveGuard { cls := defineClass methods firstId, instId := j } m
    ∧ (guardBind g e1).editor = some e1
    ∧ (guardBind (guardBind g e1) e2).editor = some e2
    ∧ (guardAenter g ch1).1.disabledItems = g.disabledItems ++ enabledIds ch1
    ∧ (guardAenter (guardBind (guardAenter (guardBind g e1) ch1).1 e2)
          ch2).1.disabledItems
        = g.disabledItems ++ enabledIds ch1 ++ enabledIds ch2 := by
  refine ⟨by simp [defineClass], rfl, rfl, rfl, ?_, ?_⟩
  · simp [guardAenter, aenterLoop_spec]
  · simp [guardAenter, guardBind, aenterLoop_spec]

/-- Lifecycle state of a `ClosableEditor` (closable.py): `__ending_task`
(the recorded handle of the task running `on_end`, held by task id), the base
view's stopped flag, the component list, and an instrumentation counter of how
many times an `on_end` run has been started. -/
structure ClosableState where
  endingTask : Option Nat
  stopped : Bool
  children : List Component
  onEndStarts : Nat
deriving DecidableEq

/-- Model of `ClosableEditor.__init__` (closable.py lines 28-30):
`self.__ending_task = None`, then the base initialisation. -/
def closableInit (children : List Component) : ClosableState :=
  { endingTask := none, stopped := false, children := children, onEndStarts := 0 }

/-- Model of `ClosableEditor.stop` (closable.py lines 74-77): unconditionally
create a new task running `on_end` — one more start of `on_end`, with
`newTaskId` the id of the freshly created task — record it as
`self.__ending_task` (replacing any previously recorded handle), then perform
the base `View.stop`. There is no guard against being called again. -/
def closableStop (s : ClosableState) (newTaskId : Nat) : ClosableState :=
  { s with
      endingTask := some newTaskId
      onEndStarts := s.onEndStarts + 1
      stopped := true }

/-- Model of the host-driven inactivity timeout reaching the page:
the view machinery marks the view stopped and runs
`ClosableEditor.on_timeout` (closable.py lines 54-56), which awaits
`self.on_end()` directly — one more start of `on_end`, with no task recorded —
and then the base timeout handling. -/
def closableOnTimeout (s : ClosableState) : ClosableState :=
  { s with onEndStarts := s.onEndStarts + 1, stopped := true }

/-- An end-of-life event reaching a `ClosableEditor`: an invocation of `stop`
(carrying the id of the task it creates) or a host-driven timeout firing. -/
inductive EndEvent where
  | stopCall (taskId : Nat)
  | timeoutFire
deriving DecidableEq

/-- Folding a sequence of end-of-life events over the editor state. -/
def runEndEvents : ClosableState → List EndEvent → ClosableState
  | s, [] => s
  | s, EndEvent.stopCall t :: rest => runEndEvents (closableStop s t) rest
  | s, EndEvent.timeoutFire :: rest => runEndEvents (closableOnTimeout s) rest

/-- Counterexample to claim C3 as stated: on a fresh editor, calling `stop()`
twice starts `on_end` twice — the end-of-life operation is restarted, so it is
not started at most once regardless of how many times `stop()` is invoked. -/
theorem on_end_restarted_by_second_stop :
    ¬ (runEndEvents (closableInit [])
        [EndEvent.stopCall 1, EndEvent.stopCall 2]).onEndStarts ≤ 1 := by
  decide

/-- Claim C3 as amended: `on_end` is started exactly once per end-of-life
event — each `stop()` call starts it (recording the new task and replacing the
previous handle) and each host timeout starts it directly — so over a lifetime
with `n` such events it is started `n` times; in particular exactly once when
the page ends by a single `stop` or a single timeout, but a repeated `stop`
starts it again. -/
theorem on_end_started_once_per_end_event
    (s : ClosableState) (evs : List EndEvent) :
    (runEndEvents s evs).onEndStarts = s.onEndStarts + evs.length := by
  induction evs generalizing s with
  | nil => simp [runEndEvents]
  | cons e rest ih =>
      cases e with
      | stopCall t =>
          simp [runEndEvents, ih, closableStop]
          omega
      | timeoutFire =>
          simp [runEndEvents, ih, closableOnTimeout]
          omega

/-- Events observable while running `ClosableEditor._close_interaction`. -/
inductive CloseEvent where
  | modalSent
  | timeoutNoticeSent
  | onCloseCall
  | stopCall
deriving DecidableEq

/-- Model of `ClosableEditor._close_interaction` (closable.py lines 58-72):
send the closing modal and wait on it. `Modal.wait()` returns `True` when the
modal timed out without submission: then the close-timeout message is sent to
the user as a followup and the callback returns, touching nothing else.
Otherwise (`wait()` returned `False`: the modal was submitted) `on_close`
runs, then `stop()` — which starts `on_end` as task `newTaskId`. -/
def closeInteraction (s : ClosableState) (modalTimedOut : Bool)
    (newTaskId : Nat) : ClosableState × List CloseEvent :=
  if modalTimedOut then
    (s, [CloseEvent.modalSent, CloseEvent.timeoutNoticeSent])
  else
    (closableStop s newTaskId,
     [CloseEvent.modalSent, CloseEvent.onCloseCall, CloseEvent.stopCall])

/-- The flags the `@disable_update(disable_update=True,
disable_message_update=True)` decorator places on `_close_interaction`
(closable.py line 60), read by its `_wraps_update` wrapper. -/
def closeFlags : CallbackFlags :=
  { disableUpdate := true, disableMessageUpdate := true }

/-- Claim C6: when the close button is pressed and the confirmation modal
elapses without submission, the state after the callback equals the state
before it (the page stays Open, no task recorded, components untouched),
exactly one timeout notice is sent, `on_close` and `stop` are never called,
and the wrapped close callback — wrapped once at construction with both skip
flags set — runs no post-callback refresh phase. -/
theorem close_timeout_leaves_page_open
    (s : ClosableState) (t cid : Nat) :
    (closeInteraction s true t).1 = s
    ∧ (closeInteraction s true t).2.count CloseEvent.timeoutNoticeSent = 1
    ∧ (closeInteraction s true t).2.count CloseEvent.onCloseCall = 0
    ∧ (closeInteraction s true t).2.count CloseEvent.stopCall = 0
    ∧ runWrapped closeFlags cid 1 = [CbEvent.body cid] := by
  refine ⟨rfl, ?_, ?_, ?_, by simp [runWrapped, closeFlags]⟩ <;>
    simp [closeInteraction, List.count_cons]

/-- How awaiting a `ClosableEditor` instance behaves. -/
inductive AwaitResult where
  | joinTask (taskId : Nat)
  | immediateNone
deriving DecidableEq

/-- Model of `ClosableEditor.__await__` (closable.py lines 79-82): if an
ending task has been recorded, delegate to that task's `__await__`, so the
awaiting caller suspends until the `on_end` run inside it completes
(`joinTask`); otherwise return `_never_generator()` (closable.py lines
85-95), whose body `yield from ()` yields no item, so the await performs no
suspension and resolves immediately with `None` (`immediateNone`). -/
def closableAwait (s : ClosableState) : AwaitResult :=
  match s.endingTask with
  | some t => AwaitResult.joinTask t
  | none => AwaitResult.immediateNone

/-- Claim C7: awaiting a freshly constructed editor — before any `stop` has
recorded an end-of-life task — resolves immediately with no value; awaiting
after a `stop` that created the `on_end` task `t` joins that task, suspending
the caller until the recorded `on_end` run completes. -/
theorem closable_await_semantics
    (children : List Component) (s : ClosableState) (t : Nat) :
    closableAwait (closableInit children) = AwaitResult.immediateNone
    ∧ closableAwait (closableStop s t) = AwaitResult.joinTask t := by
  exact ⟨rfl, rfl⟩

/-- The target handed to `SwitchablePage.switch`: either an existing page
instance (by object id) or a page type to be constructed. -/
inductive PageRef where
  | existing (pid : Nat)
  | ofType (tid : Nat)
deriving DecidableEq

/-- The awaited effects a `switch` call can perform, in order, plus the
suspension a wait-for-page-end would be: `awaitPageEnd p` stands for an await
of page `p` itself or of its `wait()`, i.e. a suspension of the caller until
page `p` has ended. -/
inductive SwitchEvent where
  | constructed (pid : Nat) (msg embed : Option Nat)
  | updateCall (pid : Nat)
  | updateMessageCall (pid : Nat)
  | awaitPageEnd (pid : Nat)
deriving DecidableEq

/-- Model of `SwitchablePage.switch` (hierarchy.py lines 17-36): if the
argument is a type, construct the target as `new_editor(self.message,
self.embed)` (a fresh object, id `freshId`); otherwise use the passed
instance. Then `await editor_object.update()`, `await
editor_object.update_message()`, and return the target. The method body
contains no other await — in particular no await of the target page or of its
`wait()` — so the returned trace is the complete effect sequence of the call,
in order, and the function returns as soon as the trace is exhausted. -/
def switch (selfMsg selfEmbed : Option Nat) (target : PageRef)
    (freshId : Nat) : List SwitchEvent × Nat :=
  match target with
  | PageRef.ofType _ =>
      ([SwitchEvent.constructed freshId selfMsg selfEmbed,
        SwitchEvent.updateCall freshId,
        SwitchEvent.updateMessageCall freshId], freshId)
  | PageRef.existing p =>
      ([SwitchEvent.updateCall p, SwitchEvent.updateMessageCall p], p)

/-- Claim C1 evaluated on the code: `switch` returns its target after exactly
a re-render of the target (`update`, `update_message`), performing no
suspension on any page's end — for either kind of target, no `awaitPageEnd`
event occurs in its complete trace, so it cannot be waiting for the target's
subtree to unwind when it returns. -/
theorem switch_no_join_before_return
    (selfMsg selfEmbed : Option Nat) (target : PageRef) (freshId : Nat) :
    (∀ p, SwitchEvent.awaitPageEnd p ∉ (switch selfMsg selfEmbed target freshId).1)
    ∧ (∀ q, switch selfMsg selfEmbed (PageRef.existing q) freshId
        = ([SwitchEvent.updateCall q, SwitchEvent.updateMessageCall q], q)) := by
  constructor
  · intro p
    cases target <;> simp [switch]
  · intro q
    rfl

/-- The persistent state of a `ParentPage` (hierarchy.py lines 62-100):
the `CHILDREN` class tuple (child type ids), the `_child_instances`
dictionary (child type id to instance id), and the render target fields
`message` and `embed` passed to constructed children. -/
structure ParentState where
  childrenTypes : List Nat
  childInstances : List (Nat × Nat)
  message : Option Nat
  embed : Option Nat
deriving DecidableEq

/-- Dictionary lookup `self._child_instances[child_type]`. -/
def dictFind (d : List (Nat × Nat)) (k : Nat) : Option Nat :=
  (d.find? fun e => e.1 = k).map Prod.snd

/-- Model of `ParentPage.get_child` (hierarchy.py lines 88-100): raise
`KeyError` when the requested type is not in `CHILDREN`; otherwise return the
cached instance when the dictionary holds one; on a cache miss construct a
new child as `child_type(self.message, self.embed, parent=self)` — a fresh
object, id `freshId` — and return it. No statement in the method assigns to
`_child_instances`, so the second component, the dictionary after the call,
is the unchanged input dictionary on every path. -/
def get_child (p : ParentState) (childType freshId : Nat) :
    Except Unit Nat × List (Nat × Nat) :=
  if childType ∉ p.childrenTypes then
    (Except.error (), p.childInstances)
  else
    match dictFind p.childInstances childType with
    | some inst => (Except.ok inst, p.childInstances)
    | none => (Except.ok freshId, p.childInstances)

/-- Counterexample computation for claim C2: a parent declaring child type 5
with an empty cache. The first `get_child 5` constructs a fresh child (object
100) and leaves the cache empty; the second call therefore misses the cache
again and constructs another fresh child (object 101), distinct from the
first — the two calls do not return the identical object. -/
theorem get_child_constructs_fresh_each_call :
    (get_child { childrenTypes := [5], childInstances := [],
                 message := none, embed := none } 5 100).1 = Except.ok 100
    ∧ (get_child { childrenTypes := [5], childInstances := [],
                   message := none, embed := none } 5 100).2 = []
    ∧ (get_child { childrenTypes := [5], childInstances := [],
                   message := none, embed := none } 5 101).1 = Except.ok 101
    ∧ (100 : Nat) ≠ 101 := by
  refine ⟨rfl, rfl, rfl, by decide⟩

/-- Claim C9: requesting a child type that is not among the declared
`CHILDREN` raises `KeyError` — before the dictionary is ever consulted — and
the child-instance cache after the call is exactly the cache before it. -/
theorem get_child_undeclared_keyerror
    (p : ParentState) (t freshId : Nat) (h : t ∉ p.childrenTypes) :
    (get_child p t freshId).1 = Except.error ()
    ∧ (get_child p t freshId).2 = p.childInstances := by
  unfold get_child
  simp [h]

/-- Witness for C9: type 9 is not declared by a parent declaring only type 5;
the call fails with the lookup error and the cache is unchanged. -/
theorem get_child_undeclared_keyerror_witness :
    (9 ∉ ({ childrenTypes := [5], childInstances := [(5, 77)],
            message := none, embed := none } : ParentState).childrenTypes)
    ∧ (get_child { childrenTypes := [5], childInstances := [(5, 77)],
                   message := none, embed := none } 9 0).1 = Except.error ()
    ∧ (get_child { childrenTypes := [5], childInstances := [(5, 77)],
                   message := none, embed := none } 9 0).2
        = ({ childrenTypes := [5], childInstances := [(5, 77)],
             message := none, embed := none } : ParentState).childInstances :=
  ⟨by decide,
   get_child_undeclared_keyerror
     { childrenTypes := [5], childInstances := [(5, 77)],
       message := none, embed := none } 9 0 (by decide)⟩

/-- Events observable while running `_MenuSelect.callback`: an ephemeral
error message sent to the user, a deferral of the interaction response, and
the call to `switch_to_child` for the resolved child. -/
inductive MenuEvent where
  | errorMessageSent (text : String)
  | deferCall
  | switchToChildCall (childId : Int)
deriving DecidableEq

/-- An exception escaping a modelled callback. `stopIteration` is the
`StopIteration` raised by `next()` on an exhausted iterator (inside the
`async def` callback it surfaces as a `RuntimeError` per PEP 479 — either
way an uncaught exception propagating out of the callback). -/
inductive PyError where
  | stopIteration
deriving DecidableEq

/-- Model of `_MenuSelect.callback` (menu.py lines 18-41). The host-delivered
selection string is represented by the result of `int(self.values[0])`:
`none` when that conversion raises `ValueError`, `some n` when it yields `n`.
`childIds` lists `id(c)` for the declared `CHILDREN`, in order, and `cache`
is the owning editor's `_child_instances` dictionary, returned after the call
to witness state changes. On `ValueError`: log, send an ephemeral message,
return. Then `child = next(filter(lambda c: id(c) == child_id, CHILDREN))`:
when no child matches, `next` raises `StopIteration` — the surrounding
handler is `except KeyError`, which does not catch it, so the exception
escapes before any message is sent. On a match: defer the response and call
`switch_to_child(child)` (whose `get_child` leaves the cache unchanged, see
`get_child`). -/
def menuSelectCallback (parsedValue : Option Int) (childIds : List Int)
    (cache : List (Nat × Nat)) :
    Except PyError (List MenuEvent) × List (Nat × Nat) :=
  match parsedValue with
  | none =>
      (Except.ok [MenuEvent.errorMessageSent "Selected Value is not possible...?"],
       cache)
  | some n =>
      match childIds.find? fun c => c = n with
      | some c =>
          (Except.ok [MenuEvent.deferCall, MenuEvent.switchToChildCall c], cache)
      | none => (Except.error PyError.stopIteration, cache)

/-- Claim C5 evaluated on the code: for the selection value 12345, a valid
integer matching no declared child id, the callback propagates an uncaught
exception (the `except KeyError` does not catch the `StopIteration` that
`next` raises) and sends no user-visible message; the cache is unchanged. By
contrast the non-integer selection value does follow the claim: a user
message, no exception, no state change. -/
theorem menu_select_unmatched_raises :
    (menuSelectCallback (some 12345) [7, 8] [(5, 77)]).1
      = Except.error PyError.stopIteration
    ∧ (menuSelectCallback (some 12345) [7, 8] [(5, 77)]).2 = [(5, 77)]
    ∧ (menuSelectCallback none [7, 8] [(5, 77)]).1
      = Except.ok [MenuEvent.errorMessageSent "Selected Value is not possible...?"]
    ∧ (menuSelectCallback none [7, 8] [(5, 77)]).2 = [(5, 77)] := by
  refine ⟨rfl, rfl, rfl, rfl⟩

end ArchiveBot
